import Mathlib

/-!
Shallow embedding of `backend/apps/calculations/services/profit_calculator.py`
(`ProfitCalculator.calculate` and its helpers).

Monetary values are modelled as rationals; Python
`Decimal.quantize(..., ROUND_HALF_UP)` is modelled as exact half-up
(ties away from zero) rounding to 4 (resp. 2) decimal places.  Python
`Decimal` division (28 significant digits, then quantized) is modelled as
exact rational division followed by the same quantization.  The local
`notes` list of `calculate` is modelled as a list of structured notes,
rendered to the `calculation_notes` string exactly as the source joins it
with `' | '`.
-/

namespace ProfitCalc

/-- Rounding of a rational to the nearest integer, ties away from zero
(Python `decimal.ROUND_HALF_UP`). -/
def rhu (x : ℚ) : ℤ := if 0 ≤ x then ⌊x + 1/2⌋ else -⌊-x + 1/2⌋

/-- Model of `ProfitCalculator._round`: `value.quantize(Decimal('0.0001'),
ROUND_HALF_UP)`, i.e. rounding to 4 decimal places, half away from zero. -/
def round4 (x : ℚ) : ℚ := (rhu (x * 10000) : ℚ) / 10000

/-- Model of `ProfitCalculator._round_display`:
`value.quantize(Decimal('0.01'), ROUND_HALF_UP)`, i.e. rounding to
2 decimal places, half away from zero. -/
def round2 (x : ℚ) : ℚ := (rhu (x * 100) : ℚ) / 100

/-- Model of `ProfitCalculator._percent_to_decimal`: percentage to fraction. -/
def percentToDecimal (p : ℚ) : ℚ := p / 100

/-- Constant `ProfitCalculator.DEFAULT_VAT_RATE` (also the instance field
`default_vat_rate` of a calculator constructed with no arguments). -/
def DEFAULT_VAT_RATE : ℚ := 20

/-- Constant `ProfitCalculator.DEFAULT_COMMISSION_VAT_RATE` (also the
instance field `default_commission_vat_rate` of a default calculator). -/
def DEFAULT_COMMISSION_VAT_RATE : ℚ := 20

/-- Constant `ProfitCalculator.DEFAULT_CARGO_VAT_RATE`. -/
def DEFAULT_CARGO_VAT_RATE : ℚ := 20

/-- Constant `ProfitCalculator.DEFAULT_PLATFORM_VAT_RATE`. -/
def DEFAULT_PLATFORM_VAT_RATE : ℚ := 20

/-- The structured warnings that `calculate` appends to its local `notes`
list: the missing-cost note (line 294 of the source), the VAT-refund note
with the absolute refund amount (line 336), and the loss warning
(line 387). -/
inductive Note where
  | missingCost : Note
  | vatRefund : ℚ → Note
  | loss : Note
deriving DecidableEq

/-- Separator used by `' | '.join(notes)` in the source. -/
def noteSep : String := " | "

/-- Rendering of a structured note to the string the source appends. -/
def noteText : Note → String
  | Note.missingCost => "Ürün maliyeti girilmemiş, 0 olarak hesaplandı."
  | Note.vatRefund a => "KDV iade durumu: " ++ toString a ++ " TL"
  | Note.loss => "Bu ürün zarar ediyor!"

/-- The (already converted) arguments of `ProfitCalculator.calculate`,
one field per Python parameter, in source order, with the source's default
values (the `None` default of `commission_vat_rate` resolves to the default
commission VAT rate of 20 at line 255).  `product_cost_excl_vat` is the one
parameter whose `None` is meaningful downstream, hence an `Option`. -/
structure CalcInput where
  unit_price : ℚ
  quantity : ℤ
  discount_amount : ℚ := 0
  product_cost_excl_vat : Option ℚ := none
  purchase_vat_rate : ℚ := 20
  sales_vat_rate : ℚ := 20
  commission_rate : ℚ := 12
  cargo_cost_excl_vat : ℚ := 0
  platform_fee_excl_vat : ℚ := 0
  withholding_tax_rate : ℚ := 0
  commission_vat_rate : ℚ := 20
  cargo_vat_rate : ℚ := 20
  platform_vat_rate : ℚ := 20

/-- The dataclass `CalculationResult` of the source, field for field. -/
structure CalculationResult where
  gross_sale_price : ℚ
  discount_amount : ℚ
  net_sale_price : ℚ
  product_cost_excl_vat : ℚ
  purchase_vat_rate : ℚ
  purchase_vat : ℚ
  product_cost_incl_vat : ℚ
  sales_vat_rate : ℚ
  sales_vat : ℚ
  net_sale_price_excl_vat : ℚ
  commission_rate : ℚ
  commission_amount_excl_vat : ℚ
  commission_vat_rate : ℚ
  commission_vat : ℚ
  commission_total : ℚ
  cargo_cost_excl_vat : ℚ
  cargo_vat_rate : ℚ
  cargo_vat : ℚ
  cargo_cost_total : ℚ
  platform_fee_excl_vat : ℚ
  platform_fee_vat_rate : ℚ
  platform_fee_vat : ℚ
  platform_fee_total : ℚ
  withholding_tax_rate : ℚ
  withholding_tax : ℚ
  total_output_vat : ℚ
  total_input_vat : ℚ
  net_vat_payable : ℚ
  total_trendyol_deductions : ℚ
  total_cost : ℚ
  net_profit : ℚ
  profit_margin_percent : ℚ
  is_profitable : Bool
  has_cost_data : Bool
  calculation_notes : String

/-- Line 244: `quantity = int(quantity) if quantity else 1` — a falsy
(zero) quantity is replaced by 1. -/
def effQty (q : ℤ) : ℤ := if q = 0 then 1 else q

/-- Lines 262-266: `has_cost_data = product_cost_excl_vat is not None`. -/
def has_cost_data (i : CalcInput) : Bool := i.product_cost_excl_vat.isSome

/-- Lines 262-266: the product cost actually used — `0` when the input is
`None`, the supplied cost otherwise. -/
def cost (i : CalcInput) : ℚ := i.product_cost_excl_vat.getD 0

/-- Line 273: `gross_sale_price = self._round(unit_price * quantity)`. -/
def gross_sale_price (i : CalcInput) : ℚ :=
  round4 (i.unit_price * (effQty i.quantity : ℚ))

/-- Line 274: `net_sale_price = self._round(gross_sale_price - discount_amount)`. -/
def net_sale_price (i : CalcInput) : ℚ :=
  round4 (gross_sale_price i - i.discount_amount)

/-- Line 281: `vat_divisor = Decimal('1') + self._percent_to_decimal(sales_vat_rate)`. -/
def vat_divisor (i : CalcInput) : ℚ := 1 + percentToDecimal i.sales_vat_rate

/-- Line 282: `net_sale_price_excl_vat = self._round(net_sale_price / vat_divisor)`. -/
def net_sale_price_excl_vat (i : CalcInput) : ℚ :=
  round4 (net_sale_price i / vat_divisor i)

/-- Line 283: `sales_vat = self._round(net_sale_price - net_sale_price_excl_vat)`. -/
def sales_vat (i : CalcInput) : ℚ :=
  round4 (net_sale_price i - net_sale_price_excl_vat i)

/-- Lines 288-290: `purchase_vat = self._round(product_cost_excl_vat *
self._percent_to_decimal(purchase_vat_rate))`. -/
def purchase_vat (i : CalcInput) : ℚ :=
  round4 (cost i * percentToDecimal i.purchase_vat_rate)

/-- Line 291: `product_cost_incl_vat = self._round(product_cost_excl_vat + purchase_vat)`. -/
def product_cost_incl_vat (i : CalcInput) : ℚ :=
  round4 (cost i + purchase_vat i)

/-- Lines 300-302: commission on the VAT-excluded sale price. -/
def commission_amount_excl_vat (i : CalcInput) : ℚ :=
  round4 (net_sale_price_excl_vat i * percentToDecimal i.commission_rate)

/-- Lines 303-305: VAT on the commission. -/
def commission_vat (i : CalcInput) : ℚ :=
  round4 (commission_amount_excl_vat i * percentToDecimal i.commission_vat_rate)

/-- Line 306: `commission_total = self._round(commission_amount_excl_vat + commission_vat)`. -/
def commission_total (i : CalcInput) : ℚ :=
  round4 (commission_amount_excl_vat i + commission_vat i)

/-- Lines 311-313: VAT on the cargo cost. -/
def cargo_vat (i : CalcInput) : ℚ :=
  round4 (i.cargo_cost_excl_vat * percentToDecimal i.cargo_vat_rate)

/-- Line 314: `cargo_cost_total = self._round(cargo_cost_excl_vat + cargo_vat)`. -/
def cargo_cost_total (i : CalcInput) : ℚ :=
  round4 (i.cargo_cost_excl_vat + cargo_vat i)

/-- Lines 319-321: VAT on the platform service fee. -/
def platform_fee_vat (i : CalcInput) : ℚ :=
  round4 (i.platform_fee_excl_vat * percentToDecimal i.platform_vat_rate)

/-- Line 322: `platform_fee_total = self._round(platform_fee_excl_vat + platform_fee_vat)`. -/
def platform_fee_total (i : CalcInput) : ℚ :=
  round4 (i.platform_fee_excl_vat + platform_fee_vat i)

/-- Line 329: `total_output_vat = sales_vat`. -/
def total_output_vat (i : CalcInput) : ℚ := sales_vat i

/-- Lines 330-332: `total_input_vat = self._round(purchase_vat +
commission_vat + cargo_vat + platform_fee_vat)`. -/
def total_input_vat (i : CalcInput) : ℚ :=
  round4 (purchase_vat i + commission_vat i + cargo_vat i + platform_fee_vat i)

/-- Line 333: `net_vat_payable = self._round(total_output_vat - total_input_vat)`. -/
def net_vat_payable (i : CalcInput) : ℚ :=
  round4 (total_output_vat i - total_input_vat i)

/-- Lines 342-344: `withholding_tax = self._round(net_sale_price_excl_vat *
self._percent_to_decimal(withholding_tax_rate))`. -/
def withholding_tax (i : CalcInput) : ℚ :=
  round4 (net_sale_price_excl_vat i * percentToDecimal i.withholding_tax_rate)

/-- Lines 350-352: `total_trendyol_deductions = self._round(commission_total +
cargo_cost_total + platform_fee_total)`. -/
def total_trendyol_deductions (i : CalcInput) : ℚ :=
  round4 (commission_total i + cargo_cost_total i + platform_fee_total i)

/-- Lines 359-366: `total_cost = self._round(product_cost_excl_vat +
net_vat_payable + commission_amount_excl_vat + cargo_cost_excl_vat +
platform_fee_excl_vat + withholding_tax)`. -/
def total_cost (i : CalcInput) : ℚ :=
  round4 (cost i + net_vat_payable i + commission_amount_excl_vat i +
    i.cargo_cost_excl_vat + i.platform_fee_excl_vat + withholding_tax i)

/-- Line 372: `net_profit = self._round(net_sale_price_excl_vat - total_cost)`. -/
def net_profit (i : CalcInput) : ℚ :=
  round4 (net_sale_price_excl_vat i - total_cost i)

/-- Lines 377-382: the profit margin, guarded against non-positive revenue. -/
def profit_margin_percent (i : CalcInput) : ℚ :=
  if 0 < net_sale_price_excl_vat i then
    round2 (net_profit i / net_sale_price_excl_vat i * 100)
  else 0

/-- Line 384: `is_profitable = net_profit > 0`. -/
def is_profitable (i : CalcInput) : Bool := decide (0 < net_profit i)

/-- The local `notes` list of `calculate`, in the order the source appends:
the missing-cost note (line 294), the VAT-refund note (lines 335-336), and
the loss warning (lines 386-387). -/
def notes (i : CalcInput) : List Note :=
  (if has_cost_data i then [] else [Note.missingCost]) ++
  (if net_vat_payable i < 0 then [Note.vatRefund (|net_vat_payable i|)] else []) ++
  (if !is_profitable i && has_cost_data i then [Note.loss] else [])

/-- Line 445: `calculation_notes = ' | '.join(notes)`. -/
def calculation_notes (i : CalcInput) : String :=
  String.intercalate noteSep ((notes i).map noteText)

/-- The body of `ProfitCalculator.calculate` (lines 242-446): assembles the
`CalculationResult` from the values above. -/
def calculate (i : CalcInput) : CalculationResult where
  gross_sale_price := gross_sale_price i
  discount_amount := i.discount_amount
  net_sale_price := net_sale_price i
  product_cost_excl_vat := cost i
  purchase_vat_rate := i.purchase_vat_rate
  purchase_vat := purchase_vat i
  product_cost_incl_vat := product_cost_incl_vat i
  sales_vat_rate := i.sales_vat_rate
  sales_vat := sales_vat i
  net_sale_price_excl_vat := net_sale_price_excl_vat i
  commission_rate := i.commission_rate
  commission_amount_excl_vat := commission_amount_excl_vat i
  commission_vat_rate := i.commission_vat_rate
  commission_vat := commission_vat i
  commission_total := commission_total i
  cargo_cost_excl_vat := i.cargo_cost_excl_vat
  cargo_vat_rate := i.cargo_vat_rate
  cargo_vat := cargo_vat i
  cargo_cost_total := cargo_cost_total i
  platform_fee_excl_vat := i.platform_fee_excl_vat
  platform_fee_vat_rate := i.platform_vat_rate
  platform_fee_vat := platform_fee_vat i
  platform_fee_total := platform_fee_total i
  withholding_tax_rate := i.withholding_tax_rate
  withholding_tax := withholding_tax i
  total_output_vat := total_output_vat i
  total_input_vat := total_input_vat i
  net_vat_payable := net_vat_payable i
  total_trendyol_deductions := total_trendyol_deductions i
  total_cost := total_cost i
  net_profit := net_profit i
  profit_margin_percent := profit_margin_percent i
  is_profitable := is_profitable i
  has_cost_data := has_cost_data i
  calculation_notes := calculation_notes i

/-- Replace the product-cost argument, leaving every other argument as it
was (used to compare two calls that differ only in the product cost). -/
def withCost (i : CalcInput) (c : Option ℚ) : CalcInput :=
  { i with product_cost_excl_vat := c }

/-- The raw Python values a caller may pass for a `Decimal` parameter of
`calculate`: `None`, a value that converts to a `Decimal`, or a malformed
value on which `Decimal(str(value))` raises. -/
inductive PyVal where
  | pnone : PyVal
  | dec : ℚ → PyVal
  | malformed : PyVal

/-- Model of `ProfitCalculator._to_decimal` (lines 173-182): `None` and any
value whose conversion raises are both mapped to the default; the
`except Exception: return default` of the source swallows the conversion
error. -/
def toDecimal (v : PyVal) (default : ℚ) : ℚ :=
  match v with
  | PyVal.pnone => default
  | PyVal.dec q => q
  | PyVal.malformed => default

/-- The product-cost conversion of lines 262-266: `None` stays absent
(`has_cost_data = False`); any other value goes through `_to_decimal`
with default 0. -/
def toCostOption (v : PyVal) : Option ℚ :=
  match v with
  | PyVal.pnone => none
  | PyVal.dec q => some q
  | PyVal.malformed => some 0

/-- The input-conversion prologue of `calculate` (lines 242-259) for a
default-constructed calculator: every `Decimal` parameter is passed through
`_to_decimal` with its source default, then the converted values feed the
computation. -/
def calculatePy (unit_price : PyVal) (quantity : ℤ) (discount_amount : PyVal)
    (product_cost_excl_vat : PyVal) (purchase_vat_rate : PyVal)
    (sales_vat_rate : PyVal) (commission_rate : PyVal)
    (cargo_cost_excl_vat : PyVal) (platform_fee_excl_vat : PyVal)
    (withholding_tax_rate : PyVal) (commission_vat_rate : PyVal)
    (cargo_vat_rate : PyVal) (platform_vat_rate : PyVal) : CalculationResult :=
  calculate
    { unit_price := toDecimal unit_price 0
      quantity := quantity
      discount_amount := toDecimal discount_amount 0
      product_cost_excl_vat := toCostOption product_cost_excl_vat
      purchase_vat_rate := toDecimal purchase_vat_rate DEFAULT_VAT_RATE
      sales_vat_rate := toDecimal sales_vat_rate DEFAULT_VAT_RATE
      commission_rate := toDecimal commission_rate 0
      cargo_cost_excl_vat := toDecimal cargo_cost_excl_vat 0
      platform_fee_excl_vat := toDecimal platform_fee_excl_vat 0
      withholding_tax_rate := toDecimal withholding_tax_rate 0
      commission_vat_rate := toDecimal commission_vat_rate DEFAULT_COMMISSION_VAT_RATE
      cargo_vat_rate := toDecimal cargo_vat_rate DEFAULT_CARGO_VAT_RATE
      platform_vat_rate := toDecimal platform_vat_rate DEFAULT_PLATFORM_VAT_RATE }

end ProfitCalc

namespace ProfitCalc

/-- A rational that is an exact multiple of the calculator precision
`0.0001` (what `Decimal.quantize(Decimal('0.0001'))` produces). -/
def Is4 (x : ℚ) : Prop := ∃ k : ℤ, x = (k : ℚ) / 10000

lemma Is4.of_round4 (x : ℚ) : Is4 (round4 x) := ⟨rhu (x * 10000), rfl⟩

lemma Is4.add {a b : ℚ} (ha : Is4 a) (hb : Is4 b) : Is4 (a + b) := by
  obtain ⟨k, rfl⟩ := ha
  obtain ⟨l, rfl⟩ := hb
  exact ⟨k + l, by push_cast; ring⟩

lemma Is4.sub {a b : ℚ} (ha : Is4 a) (hb : Is4 b) : Is4 (a - b) := by
  obtain ⟨k, rfl⟩ := ha
  obtain ⟨l, rfl⟩ := hb
  exact ⟨k - l, by push_cast; ring⟩

lemma rhu_intCast (k : ℤ) : rhu (k : ℚ) = k := by
  unfold rhu
  have h1 : ⌊(k : ℚ) + 1/2⌋ = k := by
    rw [add_comm, Int.floor_add_int]
    norm_num
  have h2 : ⌊-(k : ℚ) + 1/2⌋ = -k := by
    have : -(k : ℚ) = ((-k : ℤ) : ℚ) := by push_cast; ring
    rw [this, add_comm, Int.floor_add_int]
    norm_num
  split
  · exact h1
  · rw [h2]; ring

lemma round4_of_Is4 {x : ℚ} (h : Is4 x) : round4 x = x := by
  obtain ⟨k, rfl⟩ := h
  have hx : (k : ℚ) / 10000 * 10000 = (k : ℚ) := by
    field_simp
  rw [round4, hx, rhu_intCast]

lemma rhu_le (x : ℚ) : (rhu x : ℚ) ≤ x + 1/2 := by
  unfold rhu
  split
  · exact_mod_cast Int.floor_le (x + 1/2)
  · have h := Int.sub_one_lt_floor (-x + 1/2)
    push_cast
    linarith

lemma le_rhu (x : ℚ) : x - 1/2 ≤ (rhu x : ℚ) := by
  unfold rhu
  split
  · have h := Int.sub_one_lt_floor (x + 1/2)
    linarith
  · have h := Int.floor_le (-x + 1/2)
    push_cast
    linarith

lemma round4_le (x : ℚ) : round4 x ≤ x + 1/20000 := by
  have h := rhu_le (x * 10000)
  rw [round4]
  linarith

lemma le_round4 (x : ℚ) : x - 1/20000 ≤ round4 x := by
  have h := le_rhu (x * 10000)
  rw [round4]
  linarith

lemma Is4.le_of_lt_add {a b : ℚ} (ha : Is4 a) (hb : Is4 b)
    (h : a < b + 1/10000) : a ≤ b := by
  obtain ⟨k, rfl⟩ := ha
  obtain ⟨l, rfl⟩ := hb
  have hk : (k : ℚ) < (l : ℚ) + 1 := by linarith
  have hk2 : k < l + 1 := by exact_mod_cast hk
  have hk3 : (k : ℚ) ≤ (l : ℚ) := by exact_mod_cast Int.lt_add_one_iff.mp hk2
  linarith

/-- Rounded scaling by a factor at most 1 grows by at most the growth of
the argument, when both arguments are at the calculator precision. -/
lemma round4_mul_diff_le {s c1 c2 : ℚ} (hs : s ≤ 1) (h12 : c1 < c2)
    (h1 : Is4 c1) (h2 : Is4 c2) :
    round4 (c2 * s) - round4 (c1 * s) ≤ c2 - c1 := by
  rcases eq_or_lt_of_le hs with hs1 | hs1
  · subst hs1
    rw [mul_one, mul_one, round4_of_Is4 h1, round4_of_Is4 h2]
  · have b1 := le_round4 (c1 * s)
    have b2 := round4_le (c2 * s)
    have hmul : c2 * s - c1 * s < c2 - c1 := by
      have hpos : 0 < c2 - c1 := by linarith
      have : (c2 - c1) * s < (c2 - c1) * 1 := by
        exact mul_lt_mul_of_pos_left hs1 hpos
      nlinarith
    have hlt : round4 (c2 * s) - round4 (c1 * s) < (c2 - c1) + 1/10000 := by
      linarith
    exact Is4.le_of_lt_add ((Is4.of_round4 _).sub (Is4.of_round4 _))
      (h2.sub h1) hlt

end ProfitCalc

namespace ProfitCalc

@[simp] lemma calculate_gross_sale_price (i : CalcInput) :
    (calculate i).gross_sale_price = gross_sale_price i := rfl

@[simp] lemma calculate_net_sale_price (i : CalcInput) :
    (calculate i).net_sale_price = net_sale_price i := rfl

@[simp] lemma calculate_product_cost_excl_vat (i : CalcInput) :
    (calculate i).product_cost_excl_vat = cost i := rfl

@[simp] lemma calculate_purchase_vat (i : CalcInput) :
    (calculate i).purchase_vat = purchase_vat i := rfl

@[simp] lemma calculate_product_cost_incl_vat (i : CalcInput) :
    (calculate i).product_cost_incl_vat = product_cost_incl_vat i := rfl

@[simp] lemma calculate_sales_vat (i : CalcInput) :
    (calculate i).sales_vat = sales_vat i := rfl

@[simp] lemma calculate_net_sale_price_excl_vat (i : CalcInput) :
    (calculate i).net_sale_price_excl_vat = net_sale_price_excl_vat i := rfl

@[simp] lemma calculate_commission_amount_excl_vat (i : CalcInput) :
    (calculate i).commission_amount_excl_vat = commission_amount_excl_vat i := rfl

@[simp] lemma calculate_commission_vat (i : CalcInput) :
    (calculate i).commission_vat = commission_vat i := rfl

@[simp] lemma calculate_cargo_vat (i : CalcInput) :
    (calculate i).cargo_vat = cargo_vat i := rfl

@[simp] lemma calculate_platform_fee_vat (i : CalcInput) :
    (calculate i).platform_fee_vat = platform_fee_vat i := rfl

@[simp] lemma calculate_total_output_vat (i : CalcInput) :
    (calculate i).total_output_vat = total_output_vat i := rfl

@[simp] lemma calculate_total_input_vat (i : CalcInput) :
    (calculate i).total_input_vat = total_input_vat i := rfl

@[simp] lemma calculate_net_vat_payable (i : CalcInput) :
    (calculate i).net_vat_payable = net_vat_payable i := rfl

@[simp] lemma calculate_total_cost (i : CalcInput) :
    (calculate i).total_cost = total_cost i := rfl

@[simp] lemma calculate_net_profit (i : CalcInput) :
    (calculate i).net_profit = net_profit i := rfl

@[simp] lemma calculate_profit_margin_percent (i : CalcInput) :
    (calculate i).profit_margin_percent = profit_margin_percent i := rfl

@[simp] lemma calculate_is_profitable (i : CalcInput) :
    (calculate i).is_profitable = is_profitable i := rfl

@[simp] lemma calculate_has_cost_data (i : CalcInput) :
    (calculate i).has_cost_data = has_cost_data i := rfl

@[simp] lemma calculate_sales_vat_rate (i : CalcInput) :
    (calculate i).sales_vat_rate = i.sales_vat_rate := rfl

@[simp] lemma calculate_calculation_notes (i : CalcInput) :
    (calculate i).calculation_notes = calculation_notes i := rfl

/-- `net_sale_price` is already at the calculator precision, so the
re-rounding inside `sales_vat` is the identity: the extracted VAT is the
exact difference. -/
lemma sales_vat_eq (i : CalcInput) :
    sales_vat i = net_sale_price i - net_sale_price_excl_vat i := by
  rw [sales_vat]
  exact round4_of_Is4 ((Is4.of_round4 _).sub (Is4.of_round4 _))

/-- The four input-VAT summands are all quantized, so the re-rounding in
`total_input_vat` is the identity. -/
lemma total_input_vat_eq (i : CalcInput) :
    total_input_vat i =
      purchase_vat i + commission_vat i + cargo_vat i + platform_fee_vat i := by
  rw [total_input_vat]
  exact round4_of_Is4
    ((((Is4.of_round4 _).add (Is4.of_round4 _)).add (Is4.of_round4 _)).add
      (Is4.of_round4 _))

/-- Output VAT and input VAT are both quantized, so `net_vat_payable` is
their exact difference (never clamped). -/
lemma net_vat_payable_eq (i : CalcInput) :
    net_vat_payable i = total_output_vat i - total_input_vat i := by
  rw [net_vat_payable]
  exact round4_of_Is4 ((Is4.of_round4 _).sub (Is4.of_round4 _))

/-- When the product cost, cargo cost and platform fee are at the
calculator precision, the re-rounding in `total_cost` is the identity. -/
lemma total_cost_eq (i : CalcInput) (hc : Is4 (cost i))
    (hcargo : Is4 i.cargo_cost_excl_vat) (hpf : Is4 i.platform_fee_excl_vat) :
    total_cost i = cost i + net_vat_payable i + commission_amount_excl_vat i +
      i.cargo_cost_excl_vat + i.platform_fee_excl_vat + withholding_tax i := by
  rw [total_cost]
  exact round4_of_Is4
    (((((hc.add (Is4.of_round4 _)).add (Is4.of_round4 _)).add hcargo).add
      hpf).add (Is4.of_round4 _))

/-- Revenue and total cost are both quantized, so `net_profit` is their
exact difference. -/
lemma net_profit_eq (i : CalcInput) :
    net_profit i = net_sale_price_excl_vat i - total_cost i := by
  rw [net_profit]
  refine round4_of_Is4 ((Is4.of_round4 _).sub ?_)
  rw [total_cost]
  exact Is4.of_round4 _

end ProfitCalc

namespace ProfitCalc

/-- The worked base example of the spec: unit price 120, one item, no
discount, cost 50, all VAT rates 20, commission 12, cargo 10, platform
fee 5, every other parameter at its source default. -/
def c1Input : CalcInput :=
  { unit_price := 120
    quantity := 1
    discount_amount := 0
    product_cost_excl_vat := some 50
    purchase_vat_rate := 20
    sales_vat_rate := 20
    commission_rate := 12
    cargo_cost_excl_vat := 10
    platform_fee_excl_vat := 5
    commission_vat_rate := 20 }

/-- C1: on the base example (unit_price 120, quantity 1, no discount, cost
50 excl. VAT, purchase/sales/commission/cargo/platform VAT rates 20%,
commission 12%, cargo 10, platform fee 5), `ProfitCalculator.calculate`
returns exactly net_sale_price 120, net_sale_price_excl_vat 100,
sales_vat 20, purchase_vat 10, commission_amount_excl_vat 12,
commission_vat 2.4, cargo_vat 2, platform_fee_vat 1, total_input_vat 15.4,
net_vat_payable 4.6, total_cost 81.6, net_profit 18.4,
profit_margin_percent 18.40, and is_profitable true. -/
theorem C1_base_example :
    (calculate c1Input).net_sale_price = 120 ∧
    (calculate c1Input).net_sale_price_excl_vat = 100 ∧
    (calculate c1Input).sales_vat = 20 ∧
    (calculate c1Input).purchase_vat = 10 ∧
    (calculate c1Input).commission_amount_excl_vat = 12 ∧
    (calculate c1Input).commission_vat = 2.4 ∧
    (calculate c1Input).cargo_vat = 2 ∧
    (calculate c1Input).platform_fee_vat = 1 ∧
    (calculate c1Input).total_input_vat = 15.4 ∧
    (calculate c1Input).net_vat_payable = 4.6 ∧
    (calculate c1Input).total_cost = 81.6 ∧
    (calculate c1Input).net_profit = 18.4 ∧
    (calculate c1Input).profit_margin_percent = 18.40 ∧
    (calculate c1Input).is_profitable = true := by
  have hg : gross_sale_price c1Input = 120 := by
    norm_num [gross_sale_price, c1Input, effQty, round4, rhu]
  have hn : net_sale_price c1Input = 120 := by
    rw [net_sale_price, hg]
    norm_num [c1Input, round4, rhu]
  have hx : net_sale_price_excl_vat c1Input = 100 := by
    rw [net_sale_price_excl_vat, hn]
    norm_num [c1Input, vat_divisor, percentToDecimal, round4, rhu]
  have hsv : sales_vat c1Input = 20 := by
    rw [sales_vat, hn, hx]
    norm_num [round4, rhu]
  have hpv : purchase_vat c1Input = 10 := by
    norm_num [purchase_vat, cost, c1Input, percentToDecimal, round4, rhu]
  have hca : commission_amount_excl_vat c1Input = 12 := by
    rw [commission_amount_excl_vat, hx]
    norm_num [c1Input, percentToDecimal, round4, rhu]
  have hcv : commission_vat c1Input = 2.4 := by
    rw [commission_vat, hca]
    norm_num [c1Input, percentToDecimal, round4, rhu]
  have hgv : cargo_vat c1Input = 2 := by
    norm_num [cargo_vat, c1Input, percentToDecimal, round4, rhu]
  have hfv : platform_fee_vat c1Input = 1 := by
    norm_num [platform_fee_vat, c1Input, percentToDecimal, round4, rhu]
  have hin : total_input_vat c1Input = 15.4 := by
    rw [total_input_vat, hpv, hcv, hgv, hfv]
    norm_num [round4, rhu]
  have hout : total_output_vat c1Input = 20 := by
    rw [total_output_vat, hsv]
  have hnvp : net_vat_payable c1Input = 4.6 := by
    rw [net_vat_payable, hout, hin]
    norm_num [round4, rhu]
  have hwh : withholding_tax c1Input = 0 := by
    rw [withholding_tax, hx]
    norm_num [c1Input, percentToDecimal, round4, rhu]
  have htc : total_cost c1Input = 81.6 := by
    rw [total_cost, hnvp, hca, hwh]
    norm_num [cost, c1Input, round4, rhu]
  have hnp : net_profit c1Input = 18.4 := by
    rw [net_profit, hx, htc]
    norm_num [round4, rhu]
  have hpm : profit_margin_percent c1Input = 18.4 := by
    rw [profit_margin_percent, hx, hnp]
    norm_num [round2, rhu]
  have hip : is_profitable c1Input = true := by
    rw [is_profitable, hnp]
    norm_num
  refine ⟨?_, ?_, ?_, ?_, ?_, ?_, ?_, ?_, ?_, ?_, ?_, ?_, ?_, ?_⟩
  · rw [calculate_net_sale_price, hn]
  · rw [calculate_net_sale_price_excl_vat, hx]
  · rw [calculate_sales_vat, hsv]
  · rw [calculate_purchase_vat, hpv]
  · rw [calculate_commission_amount_excl_vat, hca]
  · rw [calculate_commission_vat, hcv]
  · rw [calculate_cargo_vat, hgv]
  · rw [calculate_platform_fee_vat, hfv]
  · rw [calculate_total_input_vat, hin]
  · rw [calculate_net_vat_payable, hnvp]
  · rw [calculate_total_cost, htc]
  · rw [calculate_net_profit, hnp]
  · rw [calculate_profit_margin_percent, hpm]; norm_num
  · rw [calculate_is_profitable, hip]

end ProfitCalc

namespace ProfitCalc

/-- C3: for every input on which the source's division is defined
(VAT divisor nonzero), the extracted VAT-excluded price plus the extracted
VAT reconstruct the VAT-inclusive net sale price exactly. -/
theorem C3_vat_roundtrip (i : CalcInput) (_h : vat_divisor i ≠ 0) :
    (calculate i).net_sale_price_excl_vat + (calculate i).sales_vat =
      (calculate i).net_sale_price := by
  rw [calculate_net_sale_price_excl_vat, calculate_sales_vat,
    calculate_net_sale_price, sales_vat_eq]
  ring

/-- Witness for C3 at the base example input. -/
theorem C3_vat_roundtrip_witness :
    vat_divisor c1Input ≠ 0 ∧
    (calculate c1Input).net_sale_price_excl_vat + (calculate c1Input).sales_vat =
      (calculate c1Input).net_sale_price :=
  ⟨by norm_num [vat_divisor, percentToDecimal, c1Input],
    C3_vat_roundtrip c1Input (by norm_num [vat_divisor, percentToDecimal, c1Input])⟩

/-- C4: `is_profitable` is true exactly when `net_profit` is strictly
positive; zero profit is not profitable. -/
theorem C4_profitability_iff (i : CalcInput) :
    (calculate i).is_profitable = true ↔ 0 < (calculate i).net_profit := by
  rw [calculate_is_profitable, calculate_net_profit, is_profitable]
  exact decide_eq_true_iff

/-- C8: the profit margin is the rounded ratio when the VAT-excluded
revenue is strictly positive and exactly 0 otherwise; the division branch
is never taken on non-positive revenue. -/
theorem C8_margin_guard (i : CalcInput) :
    (calculate i).profit_margin_percent =
      (if 0 < (calculate i).net_sale_price_excl_vat then
        round2 ((calculate i).net_profit / (calculate i).net_sale_price_excl_vat * 100)
      else 0) ∧
    ((calculate i).net_sale_price_excl_vat ≤ 0 →
      (calculate i).profit_margin_percent = 0) := by
  constructor
  · rfl
  · intro h
    rw [calculate_net_sale_price_excl_vat] at h
    rw [calculate_profit_margin_percent, profit_margin_percent,
      if_neg (not_lt.mpr h)]

/-- Witness for C8 at a zero-revenue input. -/
theorem C8_margin_guard_witness :
    (calculate { unit_price := 0, quantity := 1 }).profit_margin_percent = 0 :=
  (C8_margin_guard { unit_price := 0, quantity := 1 }).2
    (by norm_num [net_sale_price_excl_vat, net_sale_price, gross_sale_price,
      vat_divisor, percentToDecimal, effQty, round4, rhu])

/-- C9 fails as stated: a zero quantity is falsy in Python, so line 244
replaces it by 1 and the zero-quantity line keeps the full unit price as
its gross sale price instead of 0. -/
theorem C9_counterexample :
    (calculate { unit_price := 120, quantity := 0 }).gross_sale_price = 120 ∧
    round4 ((120 : ℚ) * ((0 : ℤ) : ℚ)) = 0 ∧ (120 : ℚ) ≠ 0 := by
  refine ⟨?_, ?_, by norm_num⟩
  · rw [calculate_gross_sale_price]
    norm_num [gross_sale_price, effQty, round4, rhu]
  · norm_num [round4, rhu]

/-- C9 amended: `gross_sale_price = round4(unit_price × q)` where `q` is
the supplied quantity when it is nonzero and 1 when the quantity is zero
(a falsy quantity defaults to 1 at line 244); in particular a
zero-quantity line has `gross_sale_price = round4(unit_price)`, not 0. -/
theorem C9_amended (i : CalcInput) :
    (calculate i).gross_sale_price = round4 (i.unit_price * (effQty i.quantity : ℚ)) ∧
    (i.quantity = 0 → (calculate i).gross_sale_price = round4 (i.unit_price * 1)) ∧
    (i.quantity ≠ 0 →
      (calculate i).gross_sale_price = round4 (i.unit_price * (i.quantity : ℚ))) := by
  refine ⟨rfl, ?_, ?_⟩
  · intro h
    rw [calculate_gross_sale_price, gross_sale_price, effQty, if_pos h]
    norm_num
  · intro h
    rw [calculate_gross_sale_price, gross_sale_price, effQty, if_neg h]

/-- Witness for C9 amended at a zero-quantity input. -/
theorem C9_amended_witness :
    (calculate { unit_price := 120, quantity := 0 }).gross_sale_price =
      round4 ((120 : ℚ) * 1) :=
  (C9_amended { unit_price := 120, quantity := 0 }).2.1 rfl

end ProfitCalc

namespace ProfitCalc

/-- The missing-cost note is in the notes exactly when no product cost was
supplied. -/
lemma missingCost_mem_notes_iff (i : CalcInput) :
    Note.missingCost ∈ notes i ↔ i.product_cost_excl_vat = none := by
  unfold notes has_cost_data
  cases hpc : i.product_cost_excl_vat <;>
    split_ifs <;> simp_all

/-- The loss warning is in the notes exactly when the line is not
profitable and cost data was supplied. -/
lemma loss_mem_notes_iff (i : CalcInput) :
    Note.loss ∈ notes i ↔ (net_profit i ≤ 0 ∧ has_cost_data i = true) := by
  unfold notes
  split_ifs with h1 h2 h3 <;>
    simp_all [is_profitable, not_lt]

/-- A strictly negative net VAT payable puts the refund note (with the
absolute amount) into the notes. -/
lemma vatRefund_mem_notes (i : CalcInput) (h : net_vat_payable i < 0) :
    Note.vatRefund (|net_vat_payable i|) ∈ notes i := by
  unfold notes
  rw [if_pos h]
  split_ifs <;> simp

/-- C5: `has_cost_data` is true exactly when a product cost was supplied;
with `product_cost_excl_vat = None` the result is flagged, the cost is
treated as 0 (in the result field and in the cost and profit totals, which
agree with an explicit zero cost), and the missing-cost note is present —
and that note appears only in this case. -/
theorem C5_missing_cost (i : CalcInput) :
    ((calculate i).has_cost_data = true ↔ i.product_cost_excl_vat.isSome = true) ∧
    (i.product_cost_excl_vat = none →
      (calculate i).has_cost_data = false ∧
      (calculate i).product_cost_excl_vat = 0 ∧
      (calculate i).total_cost = (calculate (withCost i (some 0))).total_cost ∧
      (calculate i).net_profit = (calculate (withCost i (some 0))).net_profit ∧
      Note.missingCost ∈ notes i) ∧
    (Note.missingCost ∈ notes i ↔ i.product_cost_excl_vat = none) := by
  refine ⟨Iff.rfl, ?_, missingCost_mem_notes_iff i⟩
  intro h
  refine ⟨?_, ?_, ?_, ?_, (missingCost_mem_notes_iff i).mpr h⟩
  · rw [calculate_has_cost_data, has_cost_data, h]
    rfl
  · rw [calculate_product_cost_excl_vat, cost, h]
    rfl
  · rw [calculate_total_cost, calculate_total_cost]
    simp [total_cost, net_vat_payable, total_input_vat, total_output_vat,
      purchase_vat, withholding_tax, commission_amount_excl_vat,
      commission_vat, cargo_vat, platform_fee_vat, sales_vat,
      net_sale_price_excl_vat, net_sale_price, gross_sale_price,
      vat_divisor, cost, withCost, h]
  · rw [calculate_net_profit, calculate_net_profit]
    simp [net_profit, total_cost, net_vat_payable, total_input_vat,
      total_output_vat, purchase_vat, withholding_tax,
      commission_amount_excl_vat, commission_vat, cargo_vat,
      platform_fee_vat, sales_vat, net_sale_price_excl_vat, net_sale_price,
      gross_sale_price, vat_divisor, cost, withCost, h]

/-- Witness for C5 at a cost-less input. -/
theorem C5_missing_cost_witness :
    (calculate { unit_price := 120, quantity := 1 }).has_cost_data = false ∧
    (calculate { unit_price := 120, quantity := 1 }).product_cost_excl_vat = 0 ∧
    Note.missingCost ∈ notes { unit_price := 120, quantity := 1 } :=
  ⟨((C5_missing_cost { unit_price := 120, quantity := 1 }).2.1 rfl).1,
    ((C5_missing_cost { unit_price := 120, quantity := 1 }).2.1 rfl).2.1,
    ((C5_missing_cost { unit_price := 120, quantity := 1 }).2.1 rfl).2.2.2.2⟩

/-- C6: whenever output VAT is below input VAT, `net_vat_payable` is the
(unclamped) rounded difference, strictly negative, and the VAT-refund note
is present. -/
theorem C6_vat_refund (i : CalcInput)
    (h : (calculate i).total_output_vat < (calculate i).total_input_vat) :
    (calculate i).net_vat_payable =
      round4 ((calculate i).total_output_vat - (calculate i).total_input_vat) ∧
    (calculate i).net_vat_payable < 0 ∧
    Note.vatRefund (|(calculate i).net_vat_payable|) ∈ notes i := by
  rw [calculate_total_output_vat, calculate_total_input_vat] at h
  have hneg : net_vat_payable i < 0 := by
    rw [net_vat_payable_eq]
    linarith
  exact ⟨rfl, hneg, vatRefund_mem_notes i hneg⟩

/-- A 0% sales-VAT line with a purchased input carrying 20% VAT: output
VAT 0, input VAT positive, hence a refund position. -/
def c6Input : CalcInput :=
  { unit_price := 100
    quantity := 1
    sales_vat_rate := 0
    product_cost_excl_vat := some 50 }

/-- Witness for C6 at the refund-position input. -/
theorem C6_vat_refund_witness :
    (calculate c6Input).net_vat_payable < 0 ∧
    Note.vatRefund (|(calculate c6Input).net_vat_payable|) ∈ notes c6Input := by
  have h : (calculate c6Input).total_output_vat <
      (calculate c6Input).total_input_vat := by
    norm_num [c6Input, total_output_vat, total_input_vat, sales_vat,
      net_sale_price_excl_vat, net_sale_price, gross_sale_price,
      vat_divisor, percentToDecimal, effQty, purchase_vat,
      commission_amount_excl_vat, commission_vat, cargo_vat,
      platform_fee_vat, cost, round4, rhu]
  exact ⟨(C6_vat_refund c6Input h).2.1, (C6_vat_refund c6Input h).2.2⟩

/-- C10: the loss warning is present exactly when the line is not
profitable (net profit at most 0) and cost data was supplied; a
cost-less loss line gets no loss warning. -/
theorem C10_loss_note_iff (i : CalcInput) :
    Note.loss ∈ notes i ↔
      ((calculate i).net_profit ≤ 0 ∧ (calculate i).has_cost_data = true) := by
  rw [calculate_net_profit, calculate_has_cost_data]
  exact loss_mem_notes_iff i

end ProfitCalc

namespace ProfitCalc

/-- C2 fails as stated: `_to_decimal` catches every conversion error and
silently returns the default, so a malformed unit price yields a normal
result computed with 0 (and a malformed sales VAT rate silently becomes
the default rate) instead of failing with a `ConversionError`. -/
theorem C2_counterexample :
    toDecimal PyVal.malformed 0 = 0 ∧
    (calculatePy PyVal.malformed 1 (PyVal.dec 0) PyVal.pnone (PyVal.dec 20)
      (PyVal.dec 20) (PyVal.dec 12) (PyVal.dec 0) (PyVal.dec 0) (PyVal.dec 0)
      PyVal.pnone (PyVal.dec 20) (PyVal.dec 20)).gross_sale_price = 0 ∧
    (calculatePy (PyVal.dec 120) 1 (PyVal.dec 0) PyVal.pnone (PyVal.dec 20)
      PyVal.malformed (PyVal.dec 12) (PyVal.dec 0) (PyVal.dec 0) (PyVal.dec 0)
      PyVal.pnone (PyVal.dec 20) (PyVal.dec 20)).sales_vat_rate =
      DEFAULT_VAT_RATE := by
  refine ⟨rfl, ?_, rfl⟩
  rw [calculatePy, calculate_gross_sale_price]
  norm_num [gross_sale_price, toDecimal, effQty, round4, rhu]

/-- C2 amended: malformed input for any `Decimal` parameter is silently
replaced by the parameter's default (0 for amounts, commission and
withholding; the default VAT rates for the rate parameters) and the
calculation proceeds normally — no `ConversionError`-class failure exists;
an absent (`None`) product cost likewise does not raise and is only
flagged through `has_cost_data`. -/
theorem C2_amended (q : ℤ) :
    (∀ d : ℚ, toDecimal PyVal.malformed d = d) ∧
    (∀ d : ℚ, toDecimal PyVal.pnone d = d) ∧
    calculatePy PyVal.malformed q PyVal.malformed PyVal.pnone PyVal.malformed
        PyVal.malformed PyVal.malformed PyVal.malformed PyVal.malformed
        PyVal.malformed PyVal.pnone PyVal.malformed PyVal.malformed =
      calculate
        { unit_price := 0
          quantity := q
          discount_amount := 0
          product_cost_excl_vat := none
          purchase_vat_rate := DEFAULT_VAT_RATE
          sales_vat_rate := DEFAULT_VAT_RATE
          commission_rate := 0
          cargo_cost_excl_vat := 0
          platform_fee_excl_vat := 0
          withholding_tax_rate := 0
          commission_vat_rate := DEFAULT_COMMISSION_VAT_RATE
          cargo_vat_rate := DEFAULT_CARGO_VAT_RATE
          platform_vat_rate := DEFAULT_PLATFORM_VAT_RATE } :=
  ⟨fun _ => rfl, fun _ => rfl, rfl⟩

/-- Two inputs differing only in the product cost, by one precision step
at the point where the 20% purchase VAT rounds up: the rounded purchase
VAT absorbs the whole cost increase, leaving the net profit unchanged. -/
def c7aInput : CalcInput :=
  { unit_price := 120
    quantity := 1
    product_cost_excl_vat := some 0.0002 }

/-- The same input with the product cost one precision step higher. -/
def c7bInput : CalcInput :=
  { unit_price := 120
    quantity := 1
    product_cost_excl_vat := some 0.0003 }

/-- C7 fails as stated: raising the product cost from 0.0002 to 0.0003
(all else fixed, default rates) leaves `net_profit` unchanged at 70.3998,
so the decrease is not strict. -/
theorem C7_counterexample :
    (0.0002 : ℚ) < 0.0003 ∧
    (calculate c7bInput).net_profit = (calculate c7aInput).net_profit := by
  have ha : net_profit c7aInput = 70.3998 := by
    norm_num [net_profit, total_cost, net_vat_payable, total_input_vat,
      total_output_vat, sales_vat, net_sale_price_excl_vat, net_sale_price,
      gross_sale_price, vat_divisor, percentToDecimal, effQty, purchase_vat,
      commission_amount_excl_vat, commission_vat, cargo_vat,
      platform_fee_vat, withholding_tax, cost, c7aInput, round4, rhu]
  have hb : net_profit c7bInput = 70.3998 := by
    norm_num [net_profit, total_cost, net_vat_payable, total_input_vat,
      total_output_vat, sales_vat, net_sale_price_excl_vat, net_sale_price,
      gross_sale_price, vat_divisor, percentToDecimal, effQty, purchase_vat,
      commission_amount_excl_vat, commission_vat, cargo_vat,
      platform_fee_vat, withholding_tax, cost, c7bInput, round4, rhu]
  refine ⟨by norm_num, ?_⟩
  rw [calculate_net_profit, calculate_net_profit, ha, hb]

/-- C7 amended: holding all else fixed, increasing the product cost never
increases the net profit, provided the purchase VAT rate is at most 100%
and the product costs, cargo cost and platform fee are multiples of the
calculator precision 0.0001; the decrease is weak, not strict (adjacent
representable costs can round to the same profit). -/
theorem C7_amended (i : CalcInput) (c1 c2 : ℚ) (h12 : c1 < c2)
    (h1 : Is4 c1) (h2 : Is4 c2)
    (hcargo : Is4 i.cargo_cost_excl_vat) (hpf : Is4 i.platform_fee_excl_vat)
    (hr : i.purchase_vat_rate ≤ 100) :
    (calculate (withCost i (some c2))).net_profit ≤
      (calculate (withCost i (some c1))).net_profit := by
  rw [calculate_net_profit, calculate_net_profit]
  have e_excl : net_sale_price_excl_vat (withCost i (some c2)) =
      net_sale_price_excl_vat (withCost i (some c1)) := rfl
  have e_comm : commission_amount_excl_vat (withCost i (some c2)) =
      commission_amount_excl_vat (withCost i (some c1)) := rfl
  have e_cv : commission_vat (withCost i (some c2)) =
      commission_vat (withCost i (some c1)) := rfl
  have e_gv : cargo_vat (withCost i (some c2)) =
      cargo_vat (withCost i (some c1)) := rfl
  have e_fv : platform_fee_vat (withCost i (some c2)) =
      platform_fee_vat (withCost i (some c1)) := rfl
  have e_wh : withholding_tax (withCost i (some c2)) =
      withholding_tax (withCost i (some c1)) := rfl
  have e_out : total_output_vat (withCost i (some c2)) =
      total_output_vat (withCost i (some c1)) := rfl
  have e_car : (withCost i (some c2)).cargo_cost_excl_vat =
      (withCost i (some c1)).cargo_cost_excl_vat := rfl
  have e_pf : (withCost i (some c2)).platform_fee_excl_vat =
      (withCost i (some c1)).platform_fee_excl_vat := rfl
  have ec1 : cost (withCost i (some c1)) = c1 := rfl
  have ec2 : cost (withCost i (some c2)) = c2 := rfl
  have hnp1 := net_profit_eq (withCost i (some c1))
  have hnp2 := net_profit_eq (withCost i (some c2))
  have htc1 := total_cost_eq (withCost i (some c1)) h1 hcargo hpf
  have htc2 := total_cost_eq (withCost i (some c2)) h2 hcargo hpf
  have hnvp1 := net_vat_payable_eq (withCost i (some c1))
  have hnvp2 := net_vat_payable_eq (withCost i (some c2))
  have hin1 := total_input_vat_eq (withCost i (some c1))
  have hin2 := total_input_vat_eq (withCost i (some c2))
  have hpv : purchase_vat (withCost i (some c2)) -
      purchase_vat (withCost i (some c1)) ≤ c2 - c1 := by
    have hs : percentToDecimal i.purchase_vat_rate ≤ 1 := by
      rw [percentToDecimal]
      linarith
    have key := round4_mul_diff_le hs h12 h1 h2
    have e1 : purchase_vat (withCost i (some c1)) =
        round4 (c1 * percentToDecimal i.purchase_vat_rate) := rfl
    have e2 : purchase_vat (withCost i (some c2)) =
        round4 (c2 * percentToDecimal i.purchase_vat_rate) := rfl
    rw [e1, e2]
    exact key
  linarith

/-- Witness for C7 amended: raising the cost of the base example from 50
to 60 does not increase the net profit. -/
theorem C7_amended_witness :
    (calculate (withCost c1Input (some 60))).net_profit ≤
      (calculate (withCost c1Input (some 50))).net_profit :=
  C7_amended c1Input 50 60 (by norm_num) ⟨500000, by norm_num⟩
    ⟨600000, by norm_num⟩ ⟨100000, by norm_num [c1Input]⟩
    ⟨50000, by norm_num [c1Input]⟩ (by norm_num [c1Input])

end ProfitCalc
